import Mathlib

/-!
# fs_watcher.cpp: event classification and watcher lifecycle

A shallow embedding of `src/fs_watcher.cpp`:

* the flag classification chain of `fs_event_stream_callback_example`
  (source lines 138-156) and the batch loop around it (lines 102-160);
* `watcher_callback_example` (lines 72-96);
* `watcher_start`, `watcher_stop` and the two functions they run on the
  dispatch queue (lines 163-246), as state passing over a `World` that logs
  every CoreServices / libdispatch call the code issues.

`FSEventStreamEventFlags` is a 32-bit unsigned integer in the SDK; flag values
are natural numbers here and every theorem below holds for all of them, so in
particular for those below `2 ^ 32`. The C truth value of `flag & mask` is
`flag &&& mask ≠ 0`.

Pointers are natural numbers with `0` for `NULL`. A `Watcher_Context_Example *`
argument is passed as the address (`self`) together with the value it points
to. The CoreFoundation array of paths is the list of its elements; its
reference counting (`CFRelease`) is not part of the model. What CoreServices
and libdispatch do with a call is not modelled either: the world records the
calls the code issues, in order, and supplies the handles they return.
-/

set_option linter.unusedVariables false

namespace FsWatcher

/-! ## Constants of `FSEvents.h` -/

/-- The flag constants of the macOS SDK header `FSEvents.h` that
`fs_watcher.cpp` names. The header is not part of the repository, so the
table is a parameter of the embedding. -/
structure FSEventStreamEventFlagTable where
  kFSEventStreamEventFlagMustScanSubDirs : Nat
  kFSEventStreamEventFlagUserDropped : Nat
  kFSEventStreamEventFlagKernelDropped : Nat
  kFSEventStreamEventFlagEventIdsWrapped : Nat
  kFSEventStreamEventFlagHistoryDone : Nat
  kFSEventStreamEventFlagRootChanged : Nat
  kFSEventStreamEventFlagMount : Nat
  kFSEventStreamEventFlagUnmount : Nat
  kFSEventStreamEventFlagItemCreated : Nat
  kFSEventStreamEventFlagItemRemoved : Nat
  kFSEventStreamEventFlagItemInodeMetaMod : Nat
  kFSEventStreamEventFlagItemRenamed : Nat
  kFSEventStreamEventFlagItemModified : Nat
  kFSEventStreamEventFlagItemFinderInfoMod : Nat
  kFSEventStreamEventFlagItemChangeOwner : Nat
  kFSEventStreamEventFlagItemXattrMod : Nat
  kFSEventStreamEventFlagItemIsFile : Nat
  kFSEventStreamEventFlagItemIsDir : Nat
  kFSEventStreamEventFlagItemIsSymlink : Nat
  kFSEventStreamEventFlagOwnEvent : Nat
  kFSEventStreamEventFlagItemIsHardlink : Nat
  kFSEventStreamEventFlagItemIsLastHardlink : Nat
  kFSEventStreamEventFlagItemCloned : Nat
  deriving Repr, DecidableEq

/-- The empty flag value; the comment at source line 219 gives it:
"kFSEventStreamEventFlagNone, which is 0". -/
def kFSEventStreamEventFlagNone : Nat := 0

/-- The values the macOS SDK header `FSEvents.h` gives the constants. Used
for the concrete inputs of the examples and counterexamples. -/
def macOS_SDK : FSEventStreamEventFlagTable where
  kFSEventStreamEventFlagMustScanSubDirs := 0x00000001
  kFSEventStreamEventFlagUserDropped := 0x00000002
  kFSEventStreamEventFlagKernelDropped := 0x00000004
  kFSEventStreamEventFlagEventIdsWrapped := 0x00000008
  kFSEventStreamEventFlagHistoryDone := 0x00000010
  kFSEventStreamEventFlagRootChanged := 0x00000020
  kFSEventStreamEventFlagMount := 0x00000040
  kFSEventStreamEventFlagUnmount := 0x00000080
  kFSEventStreamEventFlagItemCreated := 0x00000100
  kFSEventStreamEventFlagItemRemoved := 0x00000200
  kFSEventStreamEventFlagItemInodeMetaMod := 0x00000400
  kFSEventStreamEventFlagItemRenamed := 0x00000800
  kFSEventStreamEventFlagItemModified := 0x00001000
  kFSEventStreamEventFlagItemFinderInfoMod := 0x00002000
  kFSEventStreamEventFlagItemChangeOwner := 0x00004000
  kFSEventStreamEventFlagItemXattrMod := 0x00008000
  kFSEventStreamEventFlagItemIsFile := 0x00010000
  kFSEventStreamEventFlagItemIsDir := 0x00020000
  kFSEventStreamEventFlagItemIsSymlink := 0x00040000
  kFSEventStreamEventFlagOwnEvent := 0x00080000
  kFSEventStreamEventFlagItemIsHardlink := 0x00100000
  kFSEventStreamEventFlagItemIsLastHardlink := 0x00200000
  kFSEventStreamEventFlagItemCloned := 0x00400000

/-! ## `Event_Type_Example::Enum` (source lines 30-40) -/

namespace Event_Type_Example

/-- The event kinds, in the order of the source enum. -/
inductive Enum where
  | OTHER
  | CREATED
  | MODIFIED
  | RENAMED
  | REMOVED
  | ATTR_MODIFIED
  | SOME_CHANGE_SOMEWHERE_PLEASE_RESCAN
  deriving Repr, DecidableEq

end Event_Type_Example

open Event_Type_Example (Enum)

/-! ## The classification chain (source lines 138-156) -/

/-- The value the `if / else if` chain of `fs_event_stream_callback_example`
assigns to the local `event_type`, as a function of the local `flag`. -/
def event_type (K : FSEventStreamEventFlagTable) (flag : Nat) : Enum :=
  if flag = kFSEventStreamEventFlagNone then
    Enum.SOME_CHANGE_SOMEWHERE_PLEASE_RESCAN
  else if flag &&& K.kFSEventStreamEventFlagMustScanSubDirs ≠ 0 then
    Enum.SOME_CHANGE_SOMEWHERE_PLEASE_RESCAN
  else if flag &&& (K.kFSEventStreamEventFlagItemChangeOwner
      ||| K.kFSEventStreamEventFlagItemInodeMetaMod
      ||| K.kFSEventStreamEventFlagItemFinderInfoMod) ≠ 0 then
    Enum.ATTR_MODIFIED
  else if flag &&& K.kFSEventStreamEventFlagItemCreated ≠ 0 then
    Enum.CREATED
  else if flag &&& K.kFSEventStreamEventFlagItemModified ≠ 0 then
    Enum.MODIFIED
  else if flag &&& K.kFSEventStreamEventFlagItemRenamed ≠ 0 then
    Enum.RENAMED
  else if flag &&& K.kFSEventStreamEventFlagItemRemoved ≠ 0 then
    Enum.REMOVED
  else
    Enum.OTHER

/-! ## The classifier as the specification words it -/

/-- The specification's closed enumeration of event kinds. -/
inductive EventKind where
  | Created
  | Modified
  | Renamed
  | Removed
  | AttributeModified
  | RescanRequired
  | Other
  deriving Repr, DecidableEq

/-- The specification's name for each value of the source enum. -/
def toEventKind : Enum → EventKind
  | Enum.OTHER => EventKind.Other
  | Enum.CREATED => EventKind.Created
  | Enum.MODIFIED => EventKind.Modified
  | Enum.RENAMED => EventKind.Renamed
  | Enum.REMOVED => EventKind.Removed
  | Enum.ATTR_MODIFIED => EventKind.AttributeModified
  | Enum.SOME_CHANGE_SOMEWHERE_PLEASE_RESCAN => EventKind.RescanRequired

/-- A bitset "has" a flag when they share a bit. -/
def has (flags bit : Nat) : Bool := flags &&& bit != 0

/-- The specification's flag names. `MUST_SCAN_SUBDIRS`, `OWNER_CHANGED`,
`INODE_METADATA_CHANGED`, `ITEM_CREATED`, `ITEM_MODIFIED`, `ITEM_RENAMED` and
`ITEM_REMOVED` are the header constants of the same meaning;
`EXTENDED_ATTR_INFO_CHANGED` is the specification's name for the third
constant of the attribute test at source line 144,
`kFSEventStreamEventFlagItemFinderInfoMod` (the header also has a
`kFSEventStreamEventFlagItemXattrMod`, which the chain never tests). -/
structure SpecFlags where
  MUST_SCAN_SUBDIRS : Nat
  OWNER_CHANGED : Nat
  INODE_METADATA_CHANGED : Nat
  EXTENDED_ATTR_INFO_CHANGED : Nat
  ITEM_CREATED : Nat
  ITEM_MODIFIED : Nat
  ITEM_RENAMED : Nat
  ITEM_REMOVED : Nat

/-- The header constant behind each specification flag name. -/
def specFlags (K : FSEventStreamEventFlagTable) : SpecFlags where
  MUST_SCAN_SUBDIRS := K.kFSEventStreamEventFlagMustScanSubDirs
  OWNER_CHANGED := K.kFSEventStreamEventFlagItemChangeOwner
  INODE_METADATA_CHANGED := K.kFSEventStreamEventFlagItemInodeMetaMod
  EXTENDED_ATTR_INFO_CHANGED := K.kFSEventStreamEventFlagItemFinderInfoMod
  ITEM_CREATED := K.kFSEventStreamEventFlagItemCreated
  ITEM_MODIFIED := K.kFSEventStreamEventFlagItemModified
  ITEM_RENAMED := K.kFSEventStreamEventFlagItemRenamed
  ITEM_REMOVED := K.kFSEventStreamEventFlagItemRemoved

/-- The specification's priority table (section 4.1): rules 1 to 7 as an
ordered list of predicate and kind. -/
def classify_rules (S : SpecFlags) : List ((Nat → Bool) × EventKind) :=
  [ (fun flags => flags == 0, EventKind.RescanRequired),
    (fun flags => has flags S.MUST_SCAN_SUBDIRS, EventKind.RescanRequired),
    (fun flags => [S.OWNER_CHANGED, S.INODE_METADATA_CHANGED,
        S.EXTENDED_ATTR_INFO_CHANGED].any (has flags), EventKind.AttributeModified),
    (fun flags => has flags S.ITEM_CREATED, EventKind.Created),
    (fun flags => has flags S.ITEM_MODIFIED, EventKind.Modified),
    (fun flags => has flags S.ITEM_RENAMED, EventKind.Renamed),
    (fun flags => has flags S.ITEM_REMOVED, EventKind.Removed) ]

/-- The specification's `classify`: the first matching rule wins, and rule 8
(`Other`) applies when none matches. -/
def classify (S : SpecFlags) (flags : Nat) : EventKind :=
  match (classify_rules S).find? (fun rule => rule.1 flags) with
  | some rule => rule.2
  | none => EventKind.Other

/-! ## The tested bits -/

/-- The union of the eight constants the classification chain tests. -/
def tested_bits (K : FSEventStreamEventFlagTable) : Nat :=
  K.kFSEventStreamEventFlagMustScanSubDirs
    ||| K.kFSEventStreamEventFlagItemChangeOwner
    ||| K.kFSEventStreamEventFlagItemInodeMetaMod
    ||| K.kFSEventStreamEventFlagItemFinderInfoMod
    ||| K.kFSEventStreamEventFlagItemCreated
    ||| K.kFSEventStreamEventFlagItemModified
    ||| K.kFSEventStreamEventFlagItemRenamed
    ||| K.kFSEventStreamEventFlagItemRemoved

/-- The constants the chain never tests that say what the item is or where
the event comes from. -/
def informational_bits (K : FSEventStreamEventFlagTable) : List Nat :=
  [ K.kFSEventStreamEventFlagItemIsFile,
    K.kFSEventStreamEventFlagItemIsDir,
    K.kFSEventStreamEventFlagItemIsSymlink,
    K.kFSEventStreamEventFlagOwnEvent,
    K.kFSEventStreamEventFlagHistoryDone,
    K.kFSEventStreamEventFlagRootChanged,
    K.kFSEventStreamEventFlagMount,
    K.kFSEventStreamEventFlagItemXattrMod ]

/-! ## The world the code acts on -/

/-- An `FSEventStreamRef`: a pointer, `0` is `NULL`. -/
abbrev FSEventStreamRef := Nat

/-- A `dispatch_queue_t`: a pointer, `0` is `NULL`. -/
abbrev dispatch_queue_t := Nat

/-- The pointee of a `Watcher_Context_Example *` (source lines 23-28). The
member `fs_event_stream_context` is a CoreServices struct of which the code
sets only `info`. -/
structure Watcher_Context_Example where
  fs_event_stream : FSEventStreamRef
  dispatch_queue : dispatch_queue_t
  fs_event_stream_context_info : Nat
  deriving Repr, DecidableEq

/-- A call into CoreServices or libdispatch, with the handles passed and, for
the two creating calls, the handle returned. `FSEventStreamCreate` carries
the `info` pointer of its context argument and the paths to watch; its other
arguments are the constants of source lines 223-230. The `work` of a
`dispatch_sync_f` is named by the source function it runs. -/
inductive Call where
  | FSEventStreamCreate (info : Nat) (pathsToWatch : List String) (result : FSEventStreamRef)
  | dispatch_queue_create (label : String) (result : dispatch_queue_t)
  | dispatch_sync_f (queue : dispatch_queue_t) (context : Nat) (work : String)
  | FSEventStreamSetDispatchQueue (streamRef : FSEventStreamRef) (q : dispatch_queue_t)
  | FSEventStreamStart (streamRef : FSEventStreamRef)
  | FSEventStreamStop (streamRef : FSEventStreamRef)
  | FSEventStreamInvalidate (streamRef : FSEventStreamRef)
  | FSEventStreamRelease (streamRef : FSEventStreamRef)
  | dispatch_release (queue : dispatch_queue_t)
  deriving Repr, DecidableEq

/-- A call together with the dispatch queue whose work item issued it; `0`
when the calling thread issued it directly. -/
structure Issued where
  on_queue : dispatch_queue_t
  call : Call
  deriving Repr, DecidableEq

/-- One invocation of `watcher_callback_example` with its three arguments. -/
structure Invocation where
  watcher_context : Nat
  path : String
  event_type : Enum
  deriving Repr, DecidableEq

/-- Everything the code can observe or change outside its own locals:
the calls issued so far (oldest first), the queue the running code executes
on, what was printed, the invocations of the user callback, and the handles
the system will return to the next `FSEventStreamCreate` and
`dispatch_queue_create` calls (`NULL` once a list is used up). -/
structure World where
  calls : List Issued
  current_queue : dispatch_queue_t
  stdout : List String
  invocations : List Invocation
  next_streams : List FSEventStreamRef
  next_queues : List dispatch_queue_t
  deriving Repr, DecidableEq

/-- Record a call as issued from the queue the code is running on. -/
def World.issue (w : World) (c : Call) : World :=
  { w with calls := w.calls ++ [⟨w.current_queue, c⟩] }

/-- The C library's `printf("%s - %s\n", a, b)`. -/
def printf_s_dash_s (w : World) (a b : String) : World :=
  { w with stdout := w.stdout ++ [a ++ " - " ++ b ++ "\n"] }

/-- The call `FSEventStreamCreate` (source line 232): the system hands out
the next stream handle, possibly `NULL`. -/
def FSEventStreamCreate (w : World) (info : Nat) (pathsToWatch : List String) :
    World × FSEventStreamRef :=
  let result := w.next_streams.headD 0
  ({ w with next_streams := w.next_streams.tail }.issue
      (Call.FSEventStreamCreate info pathsToWatch result), result)

/-- The call `dispatch_queue_create` (source line 244): the system hands out
the next queue handle. -/
def dispatch_queue_create (w : World) (label : String) : World × dispatch_queue_t :=
  let result := w.next_queues.headD 0
  ({ w with next_queues := w.next_queues.tail }.issue
      (Call.dispatch_queue_create label result), result)

/-- The call `dispatch_sync_f(queue, context, work)`: `work(context)` runs on
`queue` and the caller resumes when it has finished. That is what libdispatch
does for a queue that `dispatch_queue_create` returned and nobody released;
what it does with any other value (`NULL`, a released queue) is for the
library to decide and lies outside this model. -/
def dispatch_sync_f (w : World) (queue : dispatch_queue_t) (context : Nat)
    (work_name : String) (work : World → World) : World :=
  let w1 := w.issue (Call.dispatch_sync_f queue context work_name)
  let w2 := work { w1 with current_queue := queue }
  { w2 with current_queue := w1.current_queue }

/-! ## `watcher_callback_example` (source lines 72-96) -/

/-- The user callback: one line printed per invocation, chosen by the
`switch` on `event_type`. The invocation itself is logged first. -/
def watcher_callback_example (w : World) (watcher_context : Nat) (path : String)
    (event_type : Enum) : World :=
  let w := { w with invocations := w.invocations ++ [⟨watcher_context, path, event_type⟩] }
  match event_type with
  | Enum.CREATED => printf_s_dash_s w "[ created ]" path
  | Enum.REMOVED => printf_s_dash_s w "[ removed ]" path
  | Enum.RENAMED => printf_s_dash_s w "[ renamed ]" path
  | Enum.MODIFIED => printf_s_dash_s w "[ modified]" path
  | Enum.ATTR_MODIFIED => printf_s_dash_s w "[attribute]" path
  | Enum.SOME_CHANGE_SOMEWHERE_PLEASE_RESCAN => printf_s_dash_s w "[   ???   ]" path
  | Enum.OTHER => printf_s_dash_s w "[  other  ]" path

/-! ## `fs_event_stream_callback_example` (source lines 98-161) -/

/-- The body of the `for` loop at index `i` (source lines 103-158): three
array reads, the classification chain, the call of the user callback. The
arrays are C arrays without a length; a read past the end of the list that
models one yields the default value. -/
def fs_event_stream_callback_example.body (K : FSEventStreamEventFlagTable)
    (watcher_context : Nat) (event_paths : List String) (eventFlags eventIds : List Nat)
    (i : Nat) (w : World) : World :=
  let path := event_paths.getD i ""
  let flag := eventFlags.getD i 0
  let event_id := eventIds.getD i 0
  watcher_callback_example w watcher_context path (event_type K flag)

/-- The loop `for (size_t i = 0; i < numEvents; ++i)` from index `i` with
`remaining = numEvents - i` iterations to go. -/
def fs_event_stream_callback_example.loop (K : FSEventStreamEventFlagTable)
    (watcher_context : Nat) (event_paths : List String) (eventFlags eventIds : List Nat) :
    (remaining i : Nat) → World → World
  | 0, _, w => w
  | remaining + 1, i, w =>
    fs_event_stream_callback_example.loop K watcher_context event_paths eventFlags eventIds
      remaining (i + 1)
      (fs_event_stream_callback_example.body K watcher_context event_paths eventFlags
        eventIds i w)

/-- The stream callback CoreServices calls with one batch. -/
def fs_event_stream_callback_example (K : FSEventStreamEventFlagTable) (w : World)
    (streamRef : FSEventStreamRef) (clientCallBackInfo : Nat) (numEvents : Nat)
    (eventPaths : List String) (eventFlags eventIds : List Nat) : World :=
  let watcher_context := clientCallBackInfo
  let event_paths := eventPaths
  fs_event_stream_callback_example.loop K watcher_context event_paths eventFlags eventIds
    numEvents 0 w

/-! ## `watcher_stop` and `watcher_start` (source lines 163-246) -/

/-- The work item of `watcher_stop` (source lines 163-167). -/
def dispatch_queue_stop (watcher_context : Watcher_Context_Example) (w : World) : World :=
  let w := w.issue (Call.FSEventStreamStop watcher_context.fs_event_stream)
  let w := w.issue (Call.FSEventStreamInvalidate watcher_context.fs_event_stream)
  w.issue (Call.FSEventStreamRelease watcher_context.fs_event_stream)

/-- The function `watcher_stop` (source lines 169-172). `self` is the pointer
argument and `watcher_context` what it points to. It returns nothing and
leaves the context as it is. -/
def watcher_stop (w : World) (self : Nat) (watcher_context : Watcher_Context_Example) :
    World :=
  let w := dispatch_sync_f w watcher_context.dispatch_queue self "dispatch_queue_stop"
    (dispatch_queue_stop watcher_context)
  w.issue (Call.dispatch_release watcher_context.dispatch_queue)

/-- The work item of `watcher_start` (source lines 174-177). -/
def dispatch_queue_start (watcher_context : Watcher_Context_Example) (w : World) : World :=
  let w := w.issue (Call.FSEventStreamSetDispatchQueue watcher_context.fs_event_stream
    watcher_context.dispatch_queue)
  w.issue (Call.FSEventStreamStart watcher_context.fs_event_stream)

/-- The loop of source lines 195-200 that copies `paths[0 .. paths_count)`
into the CoreFoundation array `cf_paths`, from index `i`. -/
def watcher_start.cf_paths (paths : List String) :
    (remaining i : Nat) → List String → List String
  | 0, _, cf_paths => cf_paths
  | remaining + 1, i, cf_paths =>
    watcher_start.cf_paths paths remaining (i + 1) (cf_paths ++ [paths.getD i ""])

/-- How a call of `watcher_start` ends: it returns (nothing, having written
the context), or the `assert` of source line 234 stops the process. -/
inductive Started where
  | returned (w : World) (watcher_context : Watcher_Context_Example)
  | assertion_failed (w : World)
  deriving Repr, DecidableEq

/-- The function `watcher_start` (source lines 179-246). `self` is the
pointer argument and `watcher_context` what it points to. `paths_count` is a
C `int`: a negative count runs the copying loop zero times. -/
def watcher_start (w : World) (self : Nat) (watcher_context : Watcher_Context_Example)
    (paths : List String) (paths_count : Int) : Started :=
  let cf_paths := watcher_start.cf_paths paths paths_count.toNat 0 []
  let watcher_context := { watcher_context with fs_event_stream_context_info := self }
  let pathsToWatch := cf_paths
  let (w, stream) := FSEventStreamCreate w watcher_context.fs_event_stream_context_info
    pathsToWatch
  let watcher_context := { watcher_context with fs_event_stream := stream }
  if watcher_context.fs_event_stream = 0 then
    Started.assertion_failed w
  else
    let (w, dispatch_queue) := dispatch_queue_create w "MyFileWatcher"
    let watcher_context := { watcher_context with dispatch_queue := dispatch_queue }
    let w := dispatch_sync_f w dispatch_queue self "dispatch_queue_start"
      (dispatch_queue_start watcher_context)
    Started.returned w watcher_context

/-- A batch as CoreServices delivers it: the three parallel arrays and their
common length. -/
structure Batch where
  numEvents : Nat
  eventPaths : List String
  eventFlags : List Nat
  eventIds : List Nat
  deriving Repr, DecidableEq

/-- The stream delivers batches, one after the other, on the dispatch queue
the stream was bound to. -/
def deliver (K : FSEventStreamEventFlagTable) (watcher_context : Watcher_Context_Example) :
    List Batch → World → World
  | [], w => w
  | b :: rest, w =>
    let w1 := fs_event_stream_callback_example K
      { w with current_queue := watcher_context.dispatch_queue }
      watcher_context.fs_event_stream watcher_context.fs_event_stream_context_info
      b.numEvents b.eventPaths b.eventFlags b.eventIds
    deliver K watcher_context rest { w1 with current_queue := w.current_queue }

/-- A process that has issued no call and printed nothing, to which the
system will hand out the given handles. -/
def World.fresh (next_streams : List FSEventStreamRef) (next_queues : List dispatch_queue_t) :
    World :=
  { calls := [], current_queue := 0, stdout := [], invocations := [],
    next_streams := next_streams, next_queues := next_queues }

/-- The zero-initialised context of `main` (source line 55). -/
def Watcher_Context_Example.zero : Watcher_Context_Example :=
  { fs_event_stream := 0, dispatch_queue := 0, fs_event_stream_context_info := 0 }

/-- What one invocation of the user callback at index `i` is handed. -/
def invocation_at (K : FSEventStreamEventFlagTable) (watcher_context : Nat)
    (event_paths : List String) (eventFlags : List Nat) (i : Nat) : Invocation :=
  ⟨watcher_context, event_paths.getD i "", event_type K (eventFlags.getD i 0)⟩

/-! # Theorems -/

/-! ## Bit lemmas -/

theorem and_or_ne_zero (f a b : Nat) :
    f &&& (a ||| b) ≠ 0 ↔ (f &&& a ≠ 0 ∨ f &&& b ≠ 0) := by
  rw [Nat.and_or_distrib_left]
  constructor
  · intro h
    by_contra hc
    push_neg at hc
    apply h
    rw [hc.1, hc.2]
    rfl
  · intro h hz
    have hz' : ∀ i, ((f &&& a) ||| (f &&& b)).testBit i = false := by
      intro i; rw [hz]; exact Nat.zero_testBit i
    rcases h with h | h
    · apply h
      apply Nat.eq_of_testBit_eq
      intro i
      have := hz' i
      rw [Nat.testBit_or, Bool.or_eq_false_iff] at this
      rw [this.1, Nat.zero_testBit]
    · apply h
      apply Nat.eq_of_testBit_eq
      intro i
      have := hz' i
      rw [Nat.testBit_or, Bool.or_eq_false_iff] at this
      rw [this.2, Nat.zero_testBit]

theorem and_or3_ne_zero (f a b c : Nat) :
    f &&& (a ||| b ||| c) ≠ 0 ↔ (f &&& a ≠ 0 ∨ f &&& b ≠ 0 ∨ f &&& c ≠ 0) := by
  rw [and_or_ne_zero, and_or_ne_zero, or_assoc]

theorem and_or_eq_zero (f a b : Nat) :
    f &&& (a ||| b) = 0 ↔ (f &&& a = 0 ∧ f &&& b = 0) := by
  have := and_or_ne_zero f a b
  constructor
  · intro h
    by_contra hc
    exact (this.2 (by tauto)) h
  · intro h
    by_contra hc
    rcases this.1 hc with h1 | h1
    · exact h1 h.1
    · exact h1 h.2

theorem and_eq_of_and_or_eq (f g a b : Nat) (h : f &&& (a ||| b) = g &&& (a ||| b)) :
    f &&& a = g &&& a ∧ f &&& b = g &&& b := by
  have h' : ∀ i, (f.testBit i && (a.testBit i || b.testBit i)) =
      (g.testBit i && (a.testBit i || b.testBit i)) := by
    intro i
    have := congrArg (fun n => Nat.testBit n i) h
    simpa [Nat.testBit_and, Nat.testBit_or] using this
  constructor <;> apply Nat.eq_of_testBit_eq <;> intro i <;> have := h' i <;>
    rw [Nat.testBit_and, Nat.testBit_and] <;> revert this <;>
    cases f.testBit i <;> cases g.testBit i <;> cases a.testBit i <;> cases b.testBit i <;> decide

theorem or_ne_zero_of_left (f e : Nat) (hf : f ≠ 0) : f ||| e ≠ 0 := by
  intro h
  apply hf
  apply Nat.eq_of_testBit_eq
  intro i
  have := congrArg (fun n => Nat.testBit n i) h
  simp only [Nat.testBit_or, Nat.zero_testBit, Bool.or_eq_false_iff] at this
  rw [this.1, Nat.zero_testBit]

theorem has_congr (f g m : Nat) (h : f &&& m = g &&& m) : has f m = has g m := by
  unfold has; rw [h]

theorem has_eq_true (f m : Nat) : has f m = true ↔ f &&& m ≠ 0 := by
  simp [has]

theorem has_eq_false (f m : Nat) : has f m = false ↔ f &&& m = 0 := by
  simp [has]

/-! ## The classification chain -/

/-- The source chain with its conditions as Booleans. -/
theorem event_type_eq_chain (K : FSEventStreamEventFlagTable) (flag : Nat) :
    event_type K flag =
      bif flag == 0 then Enum.SOME_CHANGE_SOMEWHERE_PLEASE_RESCAN
      else bif has flag K.kFSEventStreamEventFlagMustScanSubDirs then
        Enum.SOME_CHANGE_SOMEWHERE_PLEASE_RESCAN
      else bif has flag K.kFSEventStreamEventFlagItemChangeOwner
          || has flag K.kFSEventStreamEventFlagItemInodeMetaMod
          || has flag K.kFSEventStreamEventFlagItemFinderInfoMod then Enum.ATTR_MODIFIED
      else bif has flag K.kFSEventStreamEventFlagItemCreated then Enum.CREATED
      else bif has flag K.kFSEventStreamEventFlagItemModified then Enum.MODIFIED
      else bif has flag K.kFSEventStreamEventFlagItemRenamed then Enum.RENAMED
      else bif has flag K.kFSEventStreamEventFlagItemRemoved then Enum.REMOVED
      else Enum.OTHER := by
  unfold event_type kFSEventStreamEventFlagNone
  simp only [and_or3_ne_zero, has, cond_eq_if, beq_iff_eq, bne_iff_ne, Bool.or_eq_true, or_assoc]

/-- The agreement of two flag values on the tested bits, constant by constant. -/
theorem has_congr_tested (K : FSEventStreamEventFlagTable) (f g : Nat)
    (h : f &&& tested_bits K = g &&& tested_bits K) :
    has f K.kFSEventStreamEventFlagMustScanSubDirs = has g K.kFSEventStreamEventFlagMustScanSubDirs ∧
    has f K.kFSEventStreamEventFlagItemChangeOwner = has g K.kFSEventStreamEventFlagItemChangeOwner ∧
    has f K.kFSEventStreamEventFlagItemInodeMetaMod = has g K.kFSEventStreamEventFlagItemInodeMetaMod ∧
    has f K.kFSEventStreamEventFlagItemFinderInfoMod = has g K.kFSEventStreamEventFlagItemFinderInfoMod ∧
    has f K.kFSEventStreamEventFlagItemCreated = has g K.kFSEventStreamEventFlagItemCreated ∧
    has f K.kFSEventStreamEventFlagItemModified = has g K.kFSEventStreamEventFlagItemModified ∧
    has f K.kFSEventStreamEventFlagItemRenamed = has g K.kFSEventStreamEventFlagItemRenamed ∧
    has f K.kFSEventStreamEventFlagItemRemoved = has g K.kFSEventStreamEventFlagItemRemoved := by
  unfold tested_bits at h
  obtain ⟨h7, r8⟩ := and_eq_of_and_or_eq _ _ _ _ h
  obtain ⟨h6, r7⟩ := and_eq_of_and_or_eq _ _ _ _ h7
  obtain ⟨h5, r6⟩ := and_eq_of_and_or_eq _ _ _ _ h6
  obtain ⟨h4, r5⟩ := and_eq_of_and_or_eq _ _ _ _ h5
  obtain ⟨h3, r4⟩ := and_eq_of_and_or_eq _ _ _ _ h4
  obtain ⟨h2, r3⟩ := and_eq_of_and_or_eq _ _ _ _ h3
  obtain ⟨r1, r2⟩ := and_eq_of_and_or_eq _ _ _ _ h2
  exact ⟨has_congr _ _ _ r1, has_congr _ _ _ r2, has_congr _ _ _ r3, has_congr _ _ _ r4,
    has_congr _ _ _ r5, has_congr _ _ _ r6, has_congr _ _ _ r7, has_congr _ _ _ r8⟩

/-- No tested bit is set exactly when each of the eight tests fails. -/
theorem and_tested_bits_eq_zero (K : FSEventStreamEventFlagTable) (f : Nat) :
    f &&& tested_bits K = 0 ↔
      (has f K.kFSEventStreamEventFlagMustScanSubDirs = false ∧
       has f K.kFSEventStreamEventFlagItemChangeOwner = false ∧
       has f K.kFSEventStreamEventFlagItemInodeMetaMod = false ∧
       has f K.kFSEventStreamEventFlagItemFinderInfoMod = false ∧
       has f K.kFSEventStreamEventFlagItemCreated = false ∧
       has f K.kFSEventStreamEventFlagItemModified = false ∧
       has f K.kFSEventStreamEventFlagItemRenamed = false ∧
       has f K.kFSEventStreamEventFlagItemRemoved = false) := by
  unfold tested_bits
  simp only [and_or_eq_zero, has_eq_false, and_assoc]

/-- The chain's result is `OTHER` exactly for a non-zero value without any
tested bit. -/
theorem event_type_eq_OTHER_iff (K : FSEventStreamEventFlagTable) (flag : Nat) :
    event_type K flag = Enum.OTHER ↔ flag ≠ 0 ∧ flag &&& tested_bits K = 0 := by
  rw [and_tested_bits_eq_zero, event_type_eq_chain]
  have h0 : flag ≠ 0 ↔ (flag == 0) = false := by simp
  rw [h0]
  cases flag == 0 <;>
  cases has flag K.kFSEventStreamEventFlagMustScanSubDirs <;>
  cases has flag K.kFSEventStreamEventFlagItemChangeOwner <;>
  cases has flag K.kFSEventStreamEventFlagItemInodeMetaMod <;>
  cases has flag K.kFSEventStreamEventFlagItemFinderInfoMod <;>
  cases has flag K.kFSEventStreamEventFlagItemCreated <;>
  cases has flag K.kFSEventStreamEventFlagItemModified <;>
  cases has flag K.kFSEventStreamEventFlagItemRenamed <;>
  cases has flag K.kFSEventStreamEventFlagItemRemoved <;>
  simp

/-- Two non-zero flag values that agree on the tested bits get the same kind. -/
theorem event_type_congr (K : FSEventStreamEventFlagTable) (f g : Nat)
    (hf : f ≠ 0) (hg : g ≠ 0) (h : f &&& tested_bits K = g &&& tested_bits K) :
    event_type K f = event_type K g := by
  obtain ⟨h1, h2, h3, h4, h5, h6, h7, h8⟩ := has_congr_tested K f g h
  have hf0 : (f == 0) = false := by simpa using hf
  have hg0 : (g == 0) = false := by simpa using hg
  rw [event_type_eq_chain, event_type_eq_chain, hf0, hg0, h1, h2, h3, h4, h5, h6, h7, h8]

/-! ## Claims about the classification chain -/

/-- C1: for every flag table and every flag value, the kind the source chain
computes is the kind of the specification's first-match table (rescan for the
empty value, rescan for `MUST_SCAN_SUBDIRS`, attribute for any of the three
attribute flags, then created, modified, renamed, removed, else other), and
it is the one and only kind produced for that value. -/
theorem event_type_eq_classify (K : FSEventStreamEventFlagTable) (flag : Nat) :
    toEventKind (event_type K flag) = classify (specFlags K) flag ∧
      ∃! k : EventKind, toEventKind (event_type K flag) = k := by
  refine ⟨?_, ⟨_, rfl, fun k hk => hk.symm⟩⟩
  rw [event_type_eq_chain]
  unfold classify classify_rules specFlags
  simp only [List.find?, List.any_cons, List.any_nil, Bool.or_false]
  cases flag == 0 <;>
  cases has flag K.kFSEventStreamEventFlagMustScanSubDirs <;>
  cases has flag K.kFSEventStreamEventFlagItemChangeOwner <;>
  cases has flag K.kFSEventStreamEventFlagItemInodeMetaMod <;>
  cases has flag K.kFSEventStreamEventFlagItemFinderInfoMod <;>
  cases has flag K.kFSEventStreamEventFlagItemCreated <;>
  cases has flag K.kFSEventStreamEventFlagItemModified <;>
  cases has flag K.kFSEventStreamEventFlagItemRenamed <;>
  cases has flag K.kFSEventStreamEventFlagItemRemoved <;>
  rfl

/-- C2: the empty flag value classifies as
`SOME_CHANGE_SOMEWHERE_PLEASE_RESCAN`, and so does every flag value with the
`MustScanSubDirs` bit, whatever other bits it carries. -/
theorem rescan_required (K : FSEventStreamEventFlagTable) (flag : Nat) :
    event_type K kFSEventStreamEventFlagNone = Enum.SOME_CHANGE_SOMEWHERE_PLEASE_RESCAN ∧
      (flag &&& K.kFSEventStreamEventFlagMustScanSubDirs ≠ 0 →
        event_type K flag = Enum.SOME_CHANGE_SOMEWHERE_PLEASE_RESCAN) := by
  constructor
  · simp [event_type]
  · intro h
    have h1 : has flag K.kFSEventStreamEventFlagMustScanSubDirs = true := (has_eq_true _ _).2 h
    rw [event_type_eq_chain, h1]
    cases flag == 0 <;> rfl

/-- The witness of C2: the value with the must-scan bit, all three attribute
bits, the four item-change bits and the is-file bit. -/
theorem rescan_required_witness :
    event_type macOS_SDK 0 = Enum.SOME_CHANGE_SOMEWHERE_PLEASE_RESCAN ∧
      0x17F01 &&& macOS_SDK.kFSEventStreamEventFlagMustScanSubDirs ≠ 0 ∧
      event_type macOS_SDK 0x17F01 = Enum.SOME_CHANGE_SOMEWHERE_PLEASE_RESCAN :=
  ⟨(rescan_required macOS_SDK 0x17F01).1, by decide,
    (rescan_required macOS_SDK 0x17F01).2 (by decide)⟩

/-- C3 as stated fails: `0x501` has `ItemInodeMetaMod` and `ItemCreated`, and
also `MustScanSubDirs`; the chain answers rescan, not attribute. -/
theorem attribute_with_created_counterexample :
    0x501 &&& macOS_SDK.kFSEventStreamEventFlagItemInodeMetaMod ≠ 0 ∧
      0x501 &&& macOS_SDK.kFSEventStreamEventFlagItemCreated ≠ 0 ∧
      event_type macOS_SDK 0x501 = Enum.SOME_CHANGE_SOMEWHERE_PLEASE_RESCAN ∧
      event_type macOS_SDK 0x501 ≠ Enum.ATTR_MODIFIED := by
  decide

/-- C3 (amended): a flag value with an attribute bit (`ItemChangeOwner`,
`ItemInodeMetaMod` or `ItemFinderInfoMod`) and `ItemCreated` never classifies
as `CREATED`: it is `ATTR_MODIFIED` when `MustScanSubDirs` is clear and
`SOME_CHANGE_SOMEWHERE_PLEASE_RESCAN` when it is set; created together with
inode-metadata-changed (`0x500`) is `ATTR_MODIFIED`. -/
theorem attribute_before_created (K : FSEventStreamEventFlagTable) (flag : Nat)
    (hattr : flag &&& K.kFSEventStreamEventFlagItemChangeOwner ≠ 0 ∨
      flag &&& K.kFSEventStreamEventFlagItemInodeMetaMod ≠ 0 ∨
      flag &&& K.kFSEventStreamEventFlagItemFinderInfoMod ≠ 0)
    (hcreated : flag &&& K.kFSEventStreamEventFlagItemCreated ≠ 0) :
    event_type K flag ≠ Enum.CREATED ∧
      (flag &&& K.kFSEventStreamEventFlagMustScanSubDirs = 0 →
        event_type K flag = Enum.ATTR_MODIFIED) ∧
      (flag &&& K.kFSEventStreamEventFlagMustScanSubDirs ≠ 0 →
        event_type K flag = Enum.SOME_CHANGE_SOMEWHERE_PLEASE_RESCAN) ∧
      event_type macOS_SDK
        (macOS_SDK.kFSEventStreamEventFlagItemCreated
          ||| macOS_SDK.kFSEventStreamEventFlagItemInodeMetaMod) = Enum.ATTR_MODIFIED := by
  have ha : (has flag K.kFSEventStreamEventFlagItemChangeOwner
      || has flag K.kFSEventStreamEventFlagItemInodeMetaMod
      || has flag K.kFSEventStreamEventFlagItemFinderInfoMod) = true := by
    simpa [has, or_assoc] using hattr
  have hc : has flag K.kFSEventStreamEventFlagItemCreated = true := (has_eq_true _ _).2 hcreated
  refine ⟨?_, ?_, ?_, by decide⟩
  · rw [event_type_eq_chain, ha]
    cases flag == 0 <;> cases has flag K.kFSEventStreamEventFlagMustScanSubDirs <;> simp
  · intro h1
    have hm : has flag K.kFSEventStreamEventFlagMustScanSubDirs = false :=
      (has_eq_false _ _).2 h1
    have h0 : (flag == 0) = false := by
      have : flag ≠ 0 := by
        rintro rfl
        simp at hcreated
      simpa using this
    rw [event_type_eq_chain, ha, hm, h0]
    rfl
  · intro h1
    have hm : has flag K.kFSEventStreamEventFlagMustScanSubDirs = true :=
      (has_eq_true _ _).2 h1
    rw [event_type_eq_chain, hm]
    cases flag == 0 <;> rfl

/-- The witness of C3 (amended): created together with inode-metadata-changed. -/
theorem attribute_before_created_witness :
    event_type macOS_SDK 0x500 ≠ Enum.CREATED ∧
      event_type macOS_SDK 0x500 = Enum.ATTR_MODIFIED :=
  have h := attribute_before_created macOS_SDK 0x500 (by decide) (by decide)
  ⟨h.1, h.2.1 (by decide)⟩

/-- C4: for a non-zero flag value without `MustScanSubDirs` and without any
of the three attribute bits the chain tests, the item-change bits are taken
in the order created, modified, renamed, removed, other; `REMOVED` comes out
only when none of created, modified and renamed is set; created alone and
created with removed both give `CREATED`. -/
theorem item_change_order (K : FSEventStreamEventFlagTable) (flag : Nat)
    (hne : flag ≠ 0)
    (hscan : flag &&& K.kFSEventStreamEventFlagMustScanSubDirs = 0)
    (howner : flag &&& K.kFSEventStreamEventFlagItemChangeOwner = 0)
    (hinode : flag &&& K.kFSEventStreamEventFlagItemInodeMetaMod = 0)
    (hfinder : flag &&& K.kFSEventStreamEventFlagItemFinderInfoMod = 0) :
    (flag &&& K.kFSEventStreamEventFlagItemCreated ≠ 0 → event_type K flag = Enum.CREATED) ∧
    (flag &&& K.kFSEventStreamEventFlagItemCreated = 0 →
      flag &&& K.kFSEventStreamEventFlagItemModified ≠ 0 →
        event_type K flag = Enum.MODIFIED) ∧
    (flag &&& K.kFSEventStreamEventFlagItemCreated = 0 →
      flag &&& K.kFSEventStreamEventFlagItemModified = 0 →
      flag &&& K.kFSEventStreamEventFlagItemRenamed ≠ 0 →
        event_type K flag = Enum.RENAMED) ∧
    (flag &&& K.kFSEventStreamEventFlagItemCreated = 0 →
      flag &&& K.kFSEventStreamEventFlagItemModified = 0 →
      flag &&& K.kFSEventStreamEventFlagItemRenamed = 0 →
      flag &&& K.kFSEventStreamEventFlagItemRemoved ≠ 0 →
        event_type K flag = Enum.REMOVED) ∧
    (flag &&& K.kFSEventStreamEventFlagItemCreated = 0 →
      flag &&& K.kFSEventStreamEventFlagItemModified = 0 →
      flag &&& K.kFSEventStreamEventFlagItemRenamed = 0 →
      flag &&& K.kFSEventStreamEventFlagItemRemoved = 0 →
        event_type K flag = Enum.OTHER) ∧
    (event_type K flag = Enum.REMOVED →
      flag &&& K.kFSEventStreamEventFlagItemCreated = 0 ∧
      flag &&& K.kFSEventStreamEventFlagItemModified = 0 ∧
      flag &&& K.kFSEventStreamEventFlagItemRenamed = 0 ∧
      flag &&& K.kFSEventStreamEventFlagItemRemoved ≠ 0) ∧
    event_type macOS_SDK macOS_SDK.kFSEventStreamEventFlagItemCreated = Enum.CREATED ∧
    event_type macOS_SDK
      (macOS_SDK.kFSEventStreamEventFlagItemCreated
        ||| macOS_SDK.kFSEventStreamEventFlagItemRemoved) = Enum.CREATED := by
  have h0 : (flag == 0) = false := by simpa using hne
  have h1 := (has_eq_false _ _).2 hscan
  have h2 := (has_eq_false _ _).2 howner
  have h3 := (has_eq_false _ _).2 hinode
  have h4 := (has_eq_false _ _).2 hfinder
  rw [event_type_eq_chain, h0, h1, h2, h3, h4]
  simp only [← has_eq_false, ← has_eq_true]
  refine ⟨?_, ?_, ?_, ?_, ?_, ?_, by decide, by decide⟩ <;>
  cases has flag K.kFSEventStreamEventFlagItemCreated <;>
  cases has flag K.kFSEventStreamEventFlagItemModified <;>
  cases has flag K.kFSEventStreamEventFlagItemRenamed <;>
  cases has flag K.kFSEventStreamEventFlagItemRemoved <;>
  simp

/-- The witness of C4: removed together with renamed and the is-file bit
(`0x10A00`) is `RENAMED`, and removed with the is-file bit (`0x10200`) is
`REMOVED`. -/
theorem item_change_order_witness :
    event_type macOS_SDK 0x10A00 = Enum.RENAMED ∧
      event_type macOS_SDK 0x10200 = Enum.REMOVED :=
  ⟨(item_change_order macOS_SDK 0x10A00 (by decide) (by decide) (by decide) (by decide)
      (by decide)).2.2.1 (by decide) (by decide) (by decide),
   (item_change_order macOS_SDK 0x10200 (by decide) (by decide) (by decide) (by decide)
      (by decide)).2.2.2.1 (by decide) (by decide) (by decide) (by decide)⟩

/-- C10: two non-zero flag values that agree on the eight tested bits get the
same kind; or-ing bits outside the tested ones into a non-zero value does not
change its kind, and in the SDK table the is-file, is-dir, is-symlink,
own-event, history-done, root-changed, mount and xattr-modified constants are
outside; the kind is `OTHER` exactly for the non-zero values without a tested
bit. -/
theorem event_type_depends_only_on_tested_bits (K : FSEventStreamEventFlagTable)
    (f g : Nat) (hf : f ≠ 0) (hg : g ≠ 0)
    (h : f &&& tested_bits K = g &&& tested_bits K) :
    event_type K f = event_type K g ∧
    (∀ e : Nat, e &&& tested_bits K = 0 → event_type K (f ||| e) = event_type K f) ∧
    (∀ e ∈ informational_bits macOS_SDK, e &&& tested_bits macOS_SDK = 0) ∧
    (∀ flag : Nat, event_type K flag = Enum.OTHER ↔
      flag ≠ 0 ∧ flag &&& tested_bits K = 0) := by
  refine ⟨event_type_congr K f g hf hg h, ?_, by decide, event_type_eq_OTHER_iff K⟩
  intro e he
  apply event_type_congr K _ _ (or_ne_zero_of_left f e hf) hf
  rw [Nat.and_comm, Nat.and_or_distrib_left, Nat.and_comm _ e, he, Nat.or_zero, Nat.and_comm]

/-- The witness of C10: created with the is-file and xattr-modified bits
(`0x18100`) against created alone (`0x100`). -/
theorem event_type_depends_only_on_tested_bits_witness :
    event_type macOS_SDK 0x18100 = event_type macOS_SDK 0x100 :=
  (event_type_depends_only_on_tested_bits macOS_SDK 0x18100 0x100 (by decide) (by decide)
    (by decide)).1

/-! ## The batch loop -/

theorem watcher_callback_example_invocations (w : World) (c : Nat) (path : String) (e : Enum) :
    (watcher_callback_example w c path e).invocations = w.invocations ++ [⟨c, path, e⟩] := by
  cases e <;> rfl

theorem watcher_callback_example_frame (w : World) (c : Nat) (path : String) (e : Enum) :
    (watcher_callback_example w c path e).calls = w.calls ∧
    (watcher_callback_example w c path e).current_queue = w.current_queue ∧
    (watcher_callback_example w c path e).next_streams = w.next_streams ∧
    (watcher_callback_example w c path e).next_queues = w.next_queues := by
  cases e <;> exact ⟨rfl, rfl, rfl, rfl⟩

theorem loop_invocations (K : FSEventStreamEventFlagTable) (c : Nat) (paths : List String)
    (flags ids : List Nat) (remaining : Nat) :
    ∀ (i : Nat) (w : World),
      (fs_event_stream_callback_example.loop K c paths flags ids remaining i w).invocations =
        w.invocations ++ (List.range' i remaining).map (invocation_at K c paths flags) := by
  induction remaining with
  | zero => intro i w; simp [fs_event_stream_callback_example.loop]
  | succ n ih =>
    intro i w
    rw [fs_event_stream_callback_example.loop, ih, List.range'_succ, List.map_cons]
    unfold fs_event_stream_callback_example.body
    rw [watcher_callback_example_invocations, List.append_assoc]
    rfl

theorem loop_frame (K : FSEventStreamEventFlagTable) (c : Nat) (paths : List String)
    (flags ids : List Nat) (remaining : Nat) :
    ∀ (i : Nat) (w : World),
      (fs_event_stream_callback_example.loop K c paths flags ids remaining i w).calls = w.calls ∧
      (fs_event_stream_callback_example.loop K c paths flags ids remaining i w).current_queue =
        w.current_queue ∧
      (fs_event_stream_callback_example.loop K c paths flags ids remaining i w).next_streams =
        w.next_streams ∧
      (fs_event_stream_callback_example.loop K c paths flags ids remaining i w).next_queues =
        w.next_queues := by
  induction remaining with
  | zero => intro i w; exact ⟨rfl, rfl, rfl, rfl⟩
  | succ n ih =>
    intro i w
    rw [fs_event_stream_callback_example.loop]
    obtain ⟨h1, h2, h3, h4⟩ := ih (i + 1)
      (fs_event_stream_callback_example.body K c paths flags ids i w)
    obtain ⟨g1, g2, g3, g4⟩ := watcher_callback_example_frame w c (paths.getD i "")
      (event_type K (flags.getD i 0))
    unfold fs_event_stream_callback_example.body at h1 h2 h3 h4 ⊢
    exact ⟨h1.trans g1, h2.trans g2, h3.trans g3, h4.trans g4⟩

theorem loop_ids_irrelevant (K : FSEventStreamEventFlagTable) (c : Nat) (paths : List String)
    (flags ids ids' : List Nat) (remaining : Nat) :
    ∀ (i : Nat) (w : World),
      fs_event_stream_callback_example.loop K c paths flags ids remaining i w =
        fs_event_stream_callback_example.loop K c paths flags ids' remaining i w := by
  induction remaining with
  | zero => intro i w; rfl
  | succ n ih =>
    intro i w
    rw [fs_event_stream_callback_example.loop, fs_event_stream_callback_example.loop, ih]
    rfl

theorem map_invocation_at_eq_zipWith (K : FSEventStreamEventFlagTable) (c : Nat)
    (paths : List String) (flags : List Nat) (n : Nat)
    (hp : paths.length = n) (hf : flags.length = n) :
    (List.range' 0 n).map (invocation_at K c paths flags) =
      List.zipWith (fun p f => (⟨c, p, event_type K f⟩ : Invocation)) paths flags := by
  apply List.ext_getElem
  · simp [hp, hf]
  · intro j h1 h2
    have hj : j < n := by simpa using h1
    have hjp : j < paths.length := by omega
    have hjf : j < flags.length := by omega
    rw [List.getElem_map, List.getElem_zipWith, List.getElem_range']
    simp only [invocation_at, Nat.zero_add, Nat.one_mul]
    rw [List.getD_eq_getElem _ _ hjp, List.getD_eq_getElem _ _ hjf]

/-- C5: for a batch of `numEvents` notifications in three parallel arrays of
that length, the stream callback invokes the user callback `numEvents` times,
the `i`-th time with `eventPaths[i]` and the kind of `eventFlags[i]`: the
invocations added are the batch mapped element by element, in order. -/
theorem callback_once_per_notification (K : FSEventStreamEventFlagTable) (w : World)
    (streamRef : FSEventStreamRef) (clientCallBackInfo numEvents : Nat)
    (eventPaths : List String) (eventFlags eventIds : List Nat)
    (hp : eventPaths.length = numEvents) (hf : eventFlags.length = numEvents)
    (hi : eventIds.length = numEvents) :
    (fs_event_stream_callback_example K w streamRef clientCallBackInfo numEvents
        eventPaths eventFlags eventIds).invocations =
      w.invocations ++ List.zipWith
        (fun path flag => (⟨clientCallBackInfo, path, event_type K flag⟩ : Invocation))
        eventPaths eventFlags ∧
    (fs_event_stream_callback_example K w streamRef clientCallBackInfo numEvents
        eventPaths eventFlags eventIds).invocations.length =
      w.invocations.length + numEvents ∧
    ∀ (i : Nat) (h : i < numEvents),
      (fs_event_stream_callback_example K w streamRef clientCallBackInfo numEvents
          eventPaths eventFlags eventIds).invocations[w.invocations.length + i]? =
        some ⟨clientCallBackInfo, eventPaths[i], event_type K eventFlags[i]⟩ := by
  have key : (fs_event_stream_callback_example K w streamRef clientCallBackInfo numEvents
        eventPaths eventFlags eventIds).invocations =
      w.invocations ++ List.zipWith
        (fun path flag => (⟨clientCallBackInfo, path, event_type K flag⟩ : Invocation))
        eventPaths eventFlags := by
    unfold fs_event_stream_callback_example
    rw [loop_invocations, map_invocation_at_eq_zipWith K _ _ _ numEvents hp hf]
  refine ⟨key, ?_, ?_⟩
  · rw [key]; simp [hp, hf]
  · intro i h
    rw [key, List.getElem?_append_right (Nat.le_add_right _ _), Nat.add_sub_cancel_left,
      List.getElem?_zipWith]
    have hjp : i < eventPaths.length := by omega
    have hjf : i < eventFlags.length := by omega
    simp [List.getElem?_eq_getElem hjp, List.getElem?_eq_getElem hjf]

/-- The witness of C5: a batch of two, and the empty batch. -/
theorem callback_once_per_notification_witness :
    (fs_event_stream_callback_example macOS_SDK (World.fresh [] []) 11 1000 2
        ["/tmp/a", "/tmp/b"] [0x10100, 0x10200] [5, 6]).invocations =
      [⟨1000, "/tmp/a", Enum.CREATED⟩, ⟨1000, "/tmp/b", Enum.REMOVED⟩] ∧
    (fs_event_stream_callback_example macOS_SDK (World.fresh [] []) 11 1000 0
        [] [] []).invocations = [] :=
  ⟨(callback_once_per_notification macOS_SDK (World.fresh [] []) 11 1000 2
      ["/tmp/a", "/tmp/b"] [0x10100, 0x10200] [5, 6] rfl rfl rfl).1.trans (by decide),
   (callback_once_per_notification macOS_SDK (World.fresh [] []) 11 1000 0
      [] [] [] rfl rfl rfl).1⟩

/-- C6 as stated fails: the user callback is handed no sequence id. The
batch of the scenario with ids `100, 101` and the same batch with ids `7, 7`
lead to the same world, and no function of an invocation recovers the ids. -/
theorem sequence_id_not_delivered :
    fs_event_stream_callback_example macOS_SDK (World.fresh [] []) 11 1000 2
        ["p1", "p2"] [0x200, 0x100] [100, 101] =
      fs_event_stream_callback_example macOS_SDK (World.fresh [] []) 11 1000 2
        ["p1", "p2"] [0x200, 0x100] [7, 7] ∧
    ¬ ∃ sequence_id : Invocation → Nat, ∀ eventIds : List Nat, eventIds.length = 2 →
      (fs_event_stream_callback_example macOS_SDK (World.fresh [] []) 11 1000 2
        ["p1", "p2"] [0x200, 0x100] eventIds).invocations.map sequence_id = eventIds := by
  refine ⟨loop_ids_irrelevant _ _ _ _ _ _ _ _ _, ?_⟩
  rintro ⟨sequence_id, h⟩
  have h1 := h [100, 101] rfl
  have h2 := h [7, 7] rfl
  unfold fs_event_stream_callback_example at h1 h2
  rw [loop_ids_irrelevant _ _ _ _ [100, 101] [7, 7]] at h1
  rw [h1] at h2
  exact absurd h2 (by decide)

/-- C6 (amended): what the user callback is handed is the watcher context,
the path and the kind; the sequence id is read by the loop and passed on to
nobody, so the outcome of a batch does not depend on the ids. For the batch
`[(p1, removed, 100), (p2, created, 101)]` the callback is invoked with
`(p1, REMOVED)` and then `(p2, CREATED)`. -/
theorem delivered_path_and_kind (K : FSEventStreamEventFlagTable) (w : World)
    (streamRef : FSEventStreamRef) (clientCallBackInfo numEvents : Nat)
    (eventPaths : List String) (eventFlags eventIds eventIds' : List Nat) :
    fs_event_stream_callback_example K w streamRef clientCallBackInfo numEvents
        eventPaths eventFlags eventIds =
      fs_event_stream_callback_example K w streamRef clientCallBackInfo numEvents
        eventPaths eventFlags eventIds' ∧
    (fs_event_stream_callback_example K w streamRef clientCallBackInfo numEvents
        eventPaths eventFlags eventIds).invocations =
      w.invocations ++ (List.range' 0 numEvents).map
        (fun i => (⟨clientCallBackInfo, eventPaths.getD i "",
          event_type K (eventFlags.getD i 0)⟩ : Invocation)) ∧
    (fs_event_stream_callback_example macOS_SDK (World.fresh [] []) streamRef
        clientCallBackInfo 2 ["p1", "p2"]
        [macOS_SDK.kFSEventStreamEventFlagItemRemoved,
          macOS_SDK.kFSEventStreamEventFlagItemCreated] [100, 101]).invocations =
      [⟨clientCallBackInfo, "p1", Enum.REMOVED⟩, ⟨clientCallBackInfo, "p2", Enum.CREATED⟩] := by
  refine ⟨loop_ids_irrelevant _ _ _ _ _ _ _ _ _, ?_, rfl⟩
  unfold fs_event_stream_callback_example
  rw [loop_invocations]
  rfl

/-! ## Start and stop -/

theorem deliver_frame (K : FSEventStreamEventFlagTable) (c : Watcher_Context_Example)
    (batches : List Batch) :
    ∀ w : World, (deliver K c batches w).calls = w.calls ∧
      (deliver K c batches w).current_queue = w.current_queue := by
  induction batches with
  | nil => intro w; exact ⟨rfl, rfl⟩
  | cons b rest ih =>
    intro w
    rw [deliver]
    obtain ⟨h1, h2⟩ := ih
      { (fs_event_stream_callback_example K { w with current_queue := c.dispatch_queue }
          c.fs_event_stream c.fs_event_stream_context_info b.numEvents b.eventPaths
          b.eventFlags b.eventIds) with current_queue := w.current_queue }
    refine ⟨h1.trans ?_, h2⟩
    unfold fs_event_stream_callback_example
    exact (loop_frame K _ _ _ _ _ _ _).1

/-- The calls `watcher_stop` adds, for any world and any context. -/
theorem watcher_stop_calls (w : World) (self : Nat) (c : Watcher_Context_Example) :
    (watcher_stop w self c).calls = w.calls ++
      [ ⟨w.current_queue, Call.dispatch_sync_f c.dispatch_queue self "dispatch_queue_stop"⟩,
        ⟨c.dispatch_queue, Call.FSEventStreamStop c.fs_event_stream⟩,
        ⟨c.dispatch_queue, Call.FSEventStreamInvalidate c.fs_event_stream⟩,
        ⟨c.dispatch_queue, Call.FSEventStreamRelease c.fs_event_stream⟩,
        ⟨w.current_queue, Call.dispatch_release c.dispatch_queue⟩ ] := by
  simp [watcher_stop, dispatch_sync_f, dispatch_queue_stop, World.issue]

/-- The outcome of `watcher_start` when the system returns a stream. -/
theorem watcher_start_returned (w : World) (self : Nat) (c : Watcher_Context_Example)
    (paths : List String) (paths_count : Int) (hne : w.next_streams.headD 0 ≠ 0) :
    watcher_start w self c paths paths_count =
      Started.returned
        { w with
          calls := w.calls ++
            [ ⟨w.current_queue, Call.FSEventStreamCreate self
                (watcher_start.cf_paths paths paths_count.toNat 0 [])
                (w.next_streams.headD 0)⟩,
              ⟨w.current_queue, Call.dispatch_queue_create "MyFileWatcher"
                (w.next_queues.headD 0)⟩,
              ⟨w.current_queue, Call.dispatch_sync_f (w.next_queues.headD 0) self
                "dispatch_queue_start"⟩,
              ⟨w.next_queues.headD 0, Call.FSEventStreamSetDispatchQueue
                (w.next_streams.headD 0) (w.next_queues.headD 0)⟩,
              ⟨w.next_queues.headD 0, Call.FSEventStreamStart (w.next_streams.headD 0)⟩ ],
          next_streams := w.next_streams.tail,
          next_queues := w.next_queues.tail }
        { fs_event_stream := w.next_streams.headD 0,
          dispatch_queue := w.next_queues.headD 0,
          fs_event_stream_context_info := self } := by
  have hne' : ¬ w.next_streams.head?.getD 0 = 0 := by simpa using hne
  simp [watcher_start, FSEventStreamCreate, dispatch_queue_create, dispatch_sync_f,
    dispatch_queue_start, World.issue, hne']

theorem deliver_supply (K : FSEventStreamEventFlagTable) (c : Watcher_Context_Example)
    (batches : List Batch) :
    ∀ w : World, (deliver K c batches w).next_streams = w.next_streams ∧
      (deliver K c batches w).next_queues = w.next_queues := by
  induction batches with
  | nil => intro w; exact ⟨rfl, rfl⟩
  | cons b rest ih =>
    intro w
    rw [deliver]
    obtain ⟨h1, h2⟩ := ih
      { (fs_event_stream_callback_example K { w with current_queue := c.dispatch_queue }
          c.fs_event_stream c.fs_event_stream_context_info b.numEvents b.eventPaths
          b.eventFlags b.eventIds) with current_queue := w.current_queue }
    refine ⟨h1.trans ?_, h2.trans ?_⟩
    · unfold fs_event_stream_callback_example
      exact (loop_frame K _ _ _ _ _ _ _).2.2.1
    · unfold fs_event_stream_callback_example
      exact (loop_frame K _ _ _ _ _ _ _).2.2.2

/-- What `watcher_stop` leaves as it found it. -/
theorem watcher_stop_frame (w : World) (self : Nat) (c : Watcher_Context_Example) :
    (watcher_stop w self c).current_queue = w.current_queue ∧
    (watcher_stop w self c).next_streams = w.next_streams ∧
    (watcher_stop w self c).next_queues = w.next_queues := by
  simp [watcher_stop, dispatch_sync_f, dispatch_queue_stop, World.issue]

/-- The outcome of `watcher_start` when the system returns a stream, with the
world it leaves described field by field. -/
theorem watcher_start_returns (w : World) (self : Nat) (c : Watcher_Context_Example)
    (paths : List String) (paths_count : Int) (hne : w.next_streams.headD 0 ≠ 0) :
    ∃ w1, watcher_start w self c paths paths_count =
        Started.returned w1 ⟨w.next_streams.headD 0, w.next_queues.headD 0, self⟩ ∧
      w1.calls = w.calls ++
        [ ⟨w.current_queue, Call.FSEventStreamCreate self
            (watcher_start.cf_paths paths paths_count.toNat 0 [])
            (w.next_streams.headD 0)⟩,
          ⟨w.current_queue, Call.dispatch_queue_create "MyFileWatcher"
            (w.next_queues.headD 0)⟩,
          ⟨w.current_queue, Call.dispatch_sync_f (w.next_queues.headD 0) self
            "dispatch_queue_start"⟩,
          ⟨w.next_queues.headD 0, Call.FSEventStreamSetDispatchQueue
            (w.next_streams.headD 0) (w.next_queues.headD 0)⟩,
          ⟨w.next_queues.headD 0, Call.FSEventStreamStart (w.next_streams.headD 0)⟩ ] ∧
      w1.current_queue = w.current_queue ∧
      w1.next_streams = w.next_streams.tail ∧
      w1.next_queues = w.next_queues.tail :=
  ⟨_, watcher_start_returned w self c paths paths_count hne, rfl, rfl, rfl, rfl⟩

/-- C7 as stated fails: `watcher_start` checks and reports nothing. Started a
second time while running, it returns as it did the first time, with a new
stream and a new queue written over the handles of the running watcher and
five more calls issued; started again after a stop, it does the same. -/
theorem misuse_not_rejected :
    (∃ w1 c1 w2 c2,
      watcher_start (World.fresh [11, 12] [21, 22]) 1000 Watcher_Context_Example.zero
        ["./dir1", "./dir2/sub1"] 2 = Started.returned w1 c1 ∧
      watcher_start w1 1000 c1 ["./dir1", "./dir2/sub1"] 2 = Started.returned w2 c2 ∧
      c1 = ⟨11, 21, 1000⟩ ∧ c2 = ⟨12, 22, 1000⟩ ∧ c2 ≠ c1 ∧
      w2.calls = w1.calls ++
        [ ⟨0, Call.FSEventStreamCreate 1000 ["./dir1", "./dir2/sub1"] 12⟩,
          ⟨0, Call.dispatch_queue_create "MyFileWatcher" 22⟩,
          ⟨0, Call.dispatch_sync_f 22 1000 "dispatch_queue_start"⟩,
          ⟨22, Call.FSEventStreamSetDispatchQueue 12 22⟩,
          ⟨22, Call.FSEventStreamStart 12⟩ ]) ∧
    (∃ w1 c1 w3 c3,
      watcher_start (World.fresh [11, 12] [21, 22]) 1000 Watcher_Context_Example.zero
        ["./dir1", "./dir2/sub1"] 2 = Started.returned w1 c1 ∧
      watcher_start (watcher_stop w1 1000 c1) 1000 c1 ["./dir1", "./dir2/sub1"] 2 =
        Started.returned w3 c3 ∧
      c1 = ⟨11, 21, 1000⟩ ∧ c3 = ⟨12, 22, 1000⟩ ∧ c3 ≠ c1 ∧
      w3.calls = (watcher_stop w1 1000 c1).calls ++
        [ ⟨0, Call.FSEventStreamCreate 1000 ["./dir1", "./dir2/sub1"] 12⟩,
          ⟨0, Call.dispatch_queue_create "MyFileWatcher" 22⟩,
          ⟨0, Call.dispatch_sync_f 22 1000 "dispatch_queue_start"⟩,
          ⟨22, Call.FSEventStreamSetDispatchQueue 12 22⟩,
          ⟨22, Call.FSEventStreamStart 12⟩ ]) :=
  ⟨⟨_, _, _, _, rfl, rfl, rfl, rfl, by decide, rfl⟩,
   ⟨_, _, _, _, rfl, rfl, rfl, rfl, by decide, rfl⟩⟩

/-- C7 (amended): a watcher goes from created through `watcher_start` to
running and through `watcher_stop` to stopped, and `watcher_start` keeps and
checks no state. Provided the system returns non-`NULL` streams and queues:
`watcher_start` returns with a new stream and a new queue stored in the
context and the stream bound and started on that queue; `watcher_stop` on the
context so started, after any batches, stops, invalidates and releases that
stream through that queue and then releases the queue; and `watcher_start` on
the running watcher, or on the stopped one, returns in the same way, with the
next stream and queue written over the earlier handles. -/
theorem start_not_guarded (K : FSEventStreamEventFlagTable) (w : World) (self : Nat)
    (c : Watcher_Context_Example) (paths paths2 : List String)
    (paths_count paths_count2 : Int) (batches : List Batch)
    (hs1 : w.next_streams.headD 0 ≠ 0) (hq1 : w.next_queues.headD 0 ≠ 0)
    (hs2 : w.next_streams.tail.headD 0 ≠ 0) (hq2 : w.next_queues.tail.headD 0 ≠ 0) :
    ∃ w1 c1,
      watcher_start w self c paths paths_count = Started.returned w1 c1 ∧
      c1 = ⟨w.next_streams.headD 0, w.next_queues.headD 0, self⟩ ∧
      w1.calls = w.calls ++
        [ ⟨w.current_queue, Call.FSEventStreamCreate self
            (watcher_start.cf_paths paths paths_count.toNat 0 [])
            (w.next_streams.headD 0)⟩,
          ⟨w.current_queue, Call.dispatch_queue_create "MyFileWatcher"
            (w.next_queues.headD 0)⟩,
          ⟨w.current_queue, Call.dispatch_sync_f (w.next_queues.headD 0) self
            "dispatch_queue_start"⟩,
          ⟨w.next_queues.headD 0, Call.FSEventStreamSetDispatchQueue
            (w.next_streams.headD 0) (w.next_queues.headD 0)⟩,
          ⟨w.next_queues.headD 0, Call.FSEventStreamStart (w.next_streams.headD 0)⟩ ] ∧
      (watcher_stop (deliver K c1 batches w1) self c1).calls = w1.calls ++
        [ ⟨w.current_queue, Call.dispatch_sync_f (w.next_queues.headD 0) self
            "dispatch_queue_stop"⟩,
          ⟨w.next_queues.headD 0, Call.FSEventStreamStop (w.next_streams.headD 0)⟩,
          ⟨w.next_queues.headD 0, Call.FSEventStreamInvalidate (w.next_streams.headD 0)⟩,
          ⟨w.next_queues.headD 0, Call.FSEventStreamRelease (w.next_streams.headD 0)⟩,
          ⟨w.current_queue, Call.dispatch_release (w.next_queues.headD 0)⟩ ] ∧
      (∃ w2, watcher_start (deliver K c1 batches w1) self c1 paths2 paths_count2 =
          Started.returned w2
            ⟨w.next_streams.tail.headD 0, w.next_queues.tail.headD 0, self⟩ ∧
        w2.calls = w1.calls ++
          [ ⟨w.current_queue, Call.FSEventStreamCreate self
              (watcher_start.cf_paths paths2 paths_count2.toNat 0 [])
              (w.next_streams.tail.headD 0)⟩,
            ⟨w.current_queue, Call.dispatch_queue_create "MyFileWatcher"
              (w.next_queues.tail.headD 0)⟩,
            ⟨w.current_queue, Call.dispatch_sync_f (w.next_queues.tail.headD 0) self
              "dispatch_queue_start"⟩,
            ⟨w.next_queues.tail.headD 0, Call.FSEventStreamSetDispatchQueue
              (w.next_streams.tail.headD 0) (w.next_queues.tail.headD 0)⟩,
            ⟨w.next_queues.tail.headD 0, Call.FSEventStreamStart
              (w.next_streams.tail.headD 0)⟩ ]) ∧
      (∃ w3, watcher_start (watcher_stop (deliver K c1 batches w1) self c1) self c1
            paths2 paths_count2 =
          Started.returned w3
            ⟨w.next_streams.tail.headD 0, w.next_queues.tail.headD 0, self⟩ ∧
        w3.calls = (watcher_stop (deliver K c1 batches w1) self c1).calls ++
          [ ⟨w.current_queue, Call.FSEventStreamCreate self
              (watcher_start.cf_paths paths2 paths_count2.toNat 0 [])
              (w.next_streams.tail.headD 0)⟩,
            ⟨w.current_queue, Call.dispatch_queue_create "MyFileWatcher"
              (w.next_queues.tail.headD 0)⟩,
            ⟨w.current_queue, Call.dispatch_sync_f (w.next_queues.tail.headD 0) self
              "dispatch_queue_start"⟩,
            ⟨w.next_queues.tail.headD 0, Call.FSEventStreamSetDispatchQueue
              (w.next_streams.tail.headD 0) (w.next_queues.tail.headD 0)⟩,
            ⟨w.next_queues.tail.headD 0, Call.FSEventStreamStart
              (w.next_streams.tail.headD 0)⟩ ]) := by
  obtain ⟨w1, e1, hcalls1, hcur1, hstr1, hque1⟩ :=
    watcher_start_returns w self c paths paths_count hs1
  refine ⟨w1, _, e1, rfl, hcalls1, ?_, ?_, ?_⟩
  · rw [watcher_stop_calls, (deliver_frame K _ batches w1).1,
      (deliver_frame K _ batches w1).2, hcur1]
  · have hd := deliver_frame K ⟨w.next_streams.headD 0, w.next_queues.headD 0, self⟩
      batches w1
    have hsup := deliver_supply K ⟨w.next_streams.headD 0, w.next_queues.headD 0, self⟩
      batches w1
    obtain ⟨w2, e2, hcalls2, -, -, -⟩ := watcher_start_returns
      (deliver K ⟨w.next_streams.headD 0, w.next_queues.headD 0, self⟩ batches w1) self
      ⟨w.next_streams.headD 0, w.next_queues.headD 0, self⟩ paths2 paths_count2
      (by rw [hsup.1, hstr1]; exact hs2)
    rw [hsup.1, hsup.2, hstr1, hque1] at e2
    rw [hsup.1, hsup.2, hstr1, hque1, hd.1, hd.2, hcur1] at hcalls2
    exact ⟨w2, e2, hcalls2⟩
  · have hd := deliver_frame K ⟨w.next_streams.headD 0, w.next_queues.headD 0, self⟩
      batches w1
    have hsup := deliver_supply K ⟨w.next_streams.headD 0, w.next_queues.headD 0, self⟩
      batches w1
    have hst := watcher_stop_frame
      (deliver K ⟨w.next_streams.headD 0, w.next_queues.headD 0, self⟩ batches w1) self
      ⟨w.next_streams.headD 0, w.next_queues.headD 0, self⟩
    obtain ⟨w3, e3, hcalls3, -, -, -⟩ := watcher_start_returns
      (watcher_stop
        (deliver K ⟨w.next_streams.headD 0, w.next_queues.headD 0, self⟩ batches w1) self
        ⟨w.next_streams.headD 0, w.next_queues.headD 0, self⟩) self
      ⟨w.next_streams.headD 0, w.next_queues.headD 0, self⟩ paths2 paths_count2
      (by rw [hst.2.1, hsup.1, hstr1]; exact hs2)
    rw [hst.2.1, hst.2.2, hsup.1, hsup.2, hstr1, hque1] at e3
    rw [hst.1, hst.2.1, hst.2.2, hsup.1, hsup.2, hstr1, hque1, hd.2, hcur1] at hcalls3
    exact ⟨w3, e3, hcalls3⟩

/-- The witness of C7 (amended): the zero-initialised context of `main`
started on its two paths with streams `11, 12` and queues `21, 22` on offer,
one batch delivered, then started a second time. -/
theorem start_not_guarded_witness :
    ∃ w1 c1, watcher_start (World.fresh [11, 12] [21, 22]) 1000 Watcher_Context_Example.zero
        ["./dir1", "./dir2/sub1"] 2 = Started.returned w1 c1 ∧
      c1 = ⟨11, 21, 1000⟩ ∧
      ∃ w2, watcher_start
          (deliver macOS_SDK c1 [⟨1, ["./dir1/a"], [0x10100], [100]⟩] w1) 1000 c1
          ["./dir1", "./dir2/sub1"] 2 = Started.returned w2 ⟨12, 22, 1000⟩ :=
  match start_not_guarded macOS_SDK (World.fresh [11, 12] [21, 22]) 1000
      Watcher_Context_Example.zero ["./dir1", "./dir2/sub1"] ["./dir1", "./dir2/sub1"] 2 2
      [⟨1, ["./dir1/a"], [0x10100], [100]⟩] (by decide) (by decide) (by decide)
      (by decide) with
  | ⟨w1, c1, h1, h2, _, _, ⟨w2, h5, _⟩, _⟩ => ⟨w1, c1, h1, h2, w2, h5⟩

/-- C9: one watcher started and then stopped, with any batches delivered in
between. Provided `FSEventStreamCreate` returns a stream, `watcher_start`
returns, and the calls issued from start to the end of stop are, once each and
in this order: create the stream, create the queue, (on the queue) bind the
stream to the queue, start it, then (on the queue) stop, invalidate and
release the stream, and last release the queue; stream and queue of the stop
calls are the ones the start calls returned. -/
theorem start_then_stop_calls (K : FSEventStreamEventFlagTable) (w : World) (self : Nat)
    (c : Watcher_Context_Example) (paths : List String) (paths_count : Int)
    (batches : List Batch) (hne : w.next_streams.headD 0 ≠ 0) :
    ∃ w1 c1, watcher_start w self c paths paths_count = Started.returned w1 c1 ∧
      c1.fs_event_stream = w.next_streams.headD 0 ∧
      c1.dispatch_queue = w.next_queues.headD 0 ∧
      (watcher_stop (deliver K c1 batches w1) self c1).calls = w.calls ++
        [ ⟨w.current_queue, Call.FSEventStreamCreate self
            (watcher_start.cf_paths paths paths_count.toNat 0 [])
            (w.next_streams.headD 0)⟩,
          ⟨w.current_queue, Call.dispatch_queue_create "MyFileWatcher"
            (w.next_queues.headD 0)⟩,
          ⟨w.current_queue, Call.dispatch_sync_f (w.next_queues.headD 0) self
            "dispatch_queue_start"⟩,
          ⟨w.next_queues.headD 0, Call.FSEventStreamSetDispatchQueue
            (w.next_streams.headD 0) (w.next_queues.headD 0)⟩,
          ⟨w.next_queues.headD 0, Call.FSEventStreamStart (w.next_streams.headD 0)⟩,
          ⟨w.current_queue, Call.dispatch_sync_f (w.next_queues.headD 0) self
            "dispatch_queue_stop"⟩,
          ⟨w.next_queues.headD 0, Call.FSEventStreamStop (w.next_streams.headD 0)⟩,
          ⟨w.next_queues.headD 0, Call.FSEventStreamInvalidate (w.next_streams.headD 0)⟩,
          ⟨w.next_queues.headD 0, Call.FSEventStreamRelease (w.next_streams.headD 0)⟩,
          ⟨w.current_queue, Call.dispatch_release (w.next_queues.headD 0)⟩ ] := by
  refine ⟨_, _, watcher_start_returned w self c paths paths_count hne, rfl, rfl, ?_⟩
  rw [watcher_stop_calls, (deliver_frame K _ batches _).1, (deliver_frame K _ batches _).2]
  simp

/-- The witness of C9: the two paths of `main`, stream `11`, queue `21`, and
one batch of two notifications delivered between start and stop. -/
theorem start_then_stop_calls_witness :
    ∃ w1 c1, watcher_start (World.fresh [11] [21]) 1000 Watcher_Context_Example.zero
        ["./dir1", "./dir2/sub1"] 2 = Started.returned w1 c1 ∧
      (watcher_stop (deliver macOS_SDK c1
          [⟨2, ["./dir1/a", "./dir1/b"], [0x10100, 0x10200], [100, 101]⟩] w1) 1000 c1).calls =
        [ ⟨0, Call.FSEventStreamCreate 1000 ["./dir1", "./dir2/sub1"] 11⟩,
          ⟨0, Call.dispatch_queue_create "MyFileWatcher" 21⟩,
          ⟨0, Call.dispatch_sync_f 21 1000 "dispatch_queue_start"⟩,
          ⟨21, Call.FSEventStreamSetDispatchQueue 11 21⟩,
          ⟨21, Call.FSEventStreamStart 11⟩,
          ⟨0, Call.dispatch_sync_f 21 1000 "dispatch_queue_stop"⟩,
          ⟨21, Call.FSEventStreamStop 11⟩,
          ⟨21, Call.FSEventStreamInvalidate 11⟩,
          ⟨21, Call.FSEventStreamRelease 11⟩,
          ⟨0, Call.dispatch_release 21⟩ ] :=
  match start_then_stop_calls macOS_SDK (World.fresh [11] [21]) 1000
      Watcher_Context_Example.zero ["./dir1", "./dir2/sub1"] 2
      [⟨2, ["./dir1/a", "./dir1/b"], [0x10100, 0x10200], [100, 101]⟩] (by decide) with
  | ⟨w1, c1, h1, _, _, h4⟩ => ⟨w1, c1, h1, h4⟩

end FsWatcher
